import Mathlib

/-!
Shallow embedding of the discord-gatekeeper backend.

Two variants of the core exist in the repository and are both embedded here:
- the canonical handler file (the unnamed ~160-line source, `part_003`:
  routes `/link/start`, `/link`, `/link/scan`, `/link/finish`, `/webhook`),
  embedded under names ending in `_part003`;
- `server.js` (routes `/link/start`, `/link`, `/webhook` with
  `checkout.session.completed` and `customer.subscription.deleted`),
  embedded under names ending in `_serverJs`.

Modelling conventions:
- Postgres rows become Lean structures; the two tables become association
  lists keyed by their primary keys (`discord_id`, `token`).
- Timestamps are integers (seconds); `now() + interval` becomes addition.
- Nullable SQL columns and JS string fields become `Option String` /
  `Option Int`; a JS-falsy value (null, undefined, empty string) on a field
  that the code tests with `if (x)` is modelled as `none`.
- The Stripe client is an injected pure dependency: customer lookup by
  email is a function `String → Option String` (email to customer id) and
  the active-subscription check a function `String → Bool`.
- `stripe.webhooks.constructEvent` is Stripe library code, external to this
  repository; its outcome (the signature verified against the shared
  webhook secret, the body parsed) is abstracted to a `Bool` flag plus the
  parsed event, since the handlers only branch on success/failure.
- Sending the magic-link email is fire-and-forget in the source (both the
  success and the failure response leave the database alone), so it does
  not appear in the state transition.
-/

namespace Gatekeeper

/-- A row of the `users` table: `stripe_customer_id`, `subscription_status`,
`link_deadline`, `updated_at`. `discord_id` (the primary key) is the key of
the association list holding the rows. -/
structure UserRow where
  stripe_customer_id : Option String
  subscription_status : String
  link_deadline : Option Int
  updated_at : Int
deriving DecidableEq

/-- A row of the `link_tokens` table: `discord_id`, `expires_at`, `used_at`,
`metadata`. The `token` secret (the key) is the key of the association list.
Of the JSON `metadata` column the code only ever reads back `customer_id`,
so the model keeps exactly that: `some cid` for a verification token,
`none` for the handshake token (whose marker object has no `customer_id`). -/
structure TokenRow where
  discord_id : String
  expires_at : Int
  used_at : Option Int
  metadata : Option String
deriving DecidableEq

/-- The persistent state: the `users` table and the `link_tokens` table. -/
structure DB where
  users : List (String × UserRow)
  tokens : List (String × TokenRow)
deriving DecidableEq

/-- `SELECT * FROM t WHERE primary_key = k` (first matching row). -/
def lookupA {α : Type} (l : List (String × α)) (k : String) : Option α :=
  match l with
  | [] => none
  | (k2, v) :: rest => if k2 = k then some v else lookupA rest k

/-- `UPDATE t SET ... WHERE primary_key = k`: rewrite every row whose key
is `k` with `f`. -/
def updAssoc {α : Type} (k : String) (f : α → α) : List (String × α) → List (String × α)
  | [] => []
  | (k2, v) :: rest => (if k2 = k then (k2, f v) else (k2, v)) :: updAssoc k f rest

/-- `UPDATE users SET ... WHERE stripe_customer_id = c`: rewrite every row
whose `stripe_customer_id` equals `c` with `f` (a SQL NULL never equals
`c`, matching the `Option` equality). -/
def updByCustomer (c : String) (f : UserRow → UserRow) :
    List (String × UserRow) → List (String × UserRow)
  | [] => []
  | (k2, v) :: rest =>
      (if v.stripe_customer_id = some c then (k2, f v) else (k2, v)) ::
        updByCustomer c f rest

/-- `POST /link/start` of the canonical handler file: upsert the user with
`ON CONFLICT (discord_id) DO NOTHING` (fresh rows get status `unlinked` and
a deadline 24 hours out), then insert a fresh handshake token that expires
in 30 minutes. Returns the token embedded in the reply URL. `discordId` is
the parsed request field; the handler has no missing-field guard. -/
def linkStart_part003 (discordId : String) (now : Int) (fresh : String) (db : DB) :
    String × DB :=
  let users :=
    if (lookupA db.users discordId).isSome then db.users
    else db.users ++ [(discordId, ⟨none, "unlinked", some (now + 86400), now⟩)]
  let tokens := db.tokens ++ [(fresh, ⟨discordId, now + 1800, none, none⟩)]
  (fresh, ⟨users, tokens⟩)

/-- `POST /link/start` of `server.js`: upsert the user with
`ON CONFLICT (discord_id) DO UPDATE SET link_deadline = now() + '48 hours'`
(fresh rows get status `unlinked`), then insert a fresh token that expires
in 48 hours. The `!discordId` guard (400, no writes) is the `""` branch,
per the falsy-as-`none`/empty convention; `none` in the reply marks it. -/
def linkStart_serverJs (discordId : String) (now : Int) (fresh : String) (db : DB) :
    Option String × DB :=
  if discordId = "" then (none, db)
  else
    let users :=
      if (lookupA db.users discordId).isSome then
        updAssoc discordId (fun u => { u with link_deadline := some (now + 172800) }) db.users
      else db.users ++ [(discordId, ⟨none, "unlinked", some (now + 172800), now⟩)]
    let tokens := db.tokens ++ [(fresh, ⟨discordId, now + 172800, none, none⟩)]
    (some fresh, ⟨users, tokens⟩)

/-- `GET /link` of the canonical handler file:
`SELECT 1 FROM link_tokens WHERE token = $1 AND expires_at > now() AND used_at IS NULL`;
`true` renders the email form, `false` is the 403 "Invalid link." reply.
Read-only. -/
def linkPresent_part003 (token : String) (now : Int) (db : DB) : Bool :=
  match lookupA db.tokens token with
  | none => false
  | some r => decide (now < r.expires_at) && r.used_at.isNone

/-- Outcome of `POST /link/scan`: 403 "Expired." (token row absent),
"No Stripe customer found.", "No active subscription found.", or the
success page after issuing the magic token. -/
inductive ScanResult where
  | expired403
  | noCustomer
  | noActiveSub
  | emailSent
deriving DecidableEq

/-- `POST /link/scan` of the canonical handler file (the `verify` step):
`SELECT * FROM link_tokens WHERE token = $1` (note: no `used_at` and no
`expires_at` condition); 403 if absent; then the Stripe customer lookup by
email and the active-subscription check; only when both succeed is the
token marked used (`UPDATE link_tokens SET used_at = now()`) and a fresh
magic token inserted (expires in 1 hour, `metadata.customer_id` = the
discovered customer). The email hand-off does not touch the database. -/
def linkScan_part003 (token email : String) (now : Int) (fresh : String)
    (customerByEmail : String → Option String) (hasActiveSub : String → Bool)
    (db : DB) : ScanResult × DB :=
  match lookupA db.tokens token with
  | none => (.expired403, db)
  | some row =>
    match customerByEmail email with
    | none => (.noCustomer, db)
    | some cid =>
      if hasActiveSub cid then
        let tokens := updAssoc token (fun t => { t with used_at := some now }) db.tokens
        let tokens := tokens ++ [(fresh, ⟨row.discord_id, now + 3600, none, some cid⟩)]
        (.emailSent, ⟨db.users, tokens⟩)
      else (.noActiveSub, db)

/-- Outcome of `GET /link/finish`: 403 "Invalid link." or the "Linked!"
page. -/
inductive FinishResult where
  | invalid403
  | linked
deriving DecidableEq

/-- `GET /link/finish` of the canonical handler file:
`SELECT * FROM link_tokens WHERE token = $1 AND used_at IS NULL` (note: no
`expires_at` condition); 403 if absent; otherwise mark the token used and
`UPDATE users SET stripe_customer_id = metadata.customer_id,
subscription_status = 'active', updated_at = now() WHERE discord_id = $2`
(note: `link_deadline` is not in the SET list). -/
def linkFinish_part003 (token : String) (now : Int) (db : DB) : FinishResult × DB :=
  match lookupA db.tokens token with
  | none => (.invalid403, db)
  | some row =>
    if row.used_at.isNone then
      let tokens := updAssoc token (fun t => { t with used_at := some now }) db.tokens
      let users := updAssoc row.discord_id
        (fun u => { u with stripe_customer_id := row.metadata,
                           subscription_status := "active", updated_at := now }) db.users
      (.linked, ⟨users, tokens⟩)
    else (.invalid403, db)

/-- A verified Stripe event, restricted to the fields the handlers read.
`paymentFailed` is `invoice.payment_failed` (`invoice.customer`),
`subscriptionDeleted` is `customer.subscription.deleted` (`sub.customer`,
`sub.current_period_end` already converted by `to_timestamp`),
`checkoutCompleted` is `checkout.session.completed` (`session.customer`,
`session.metadata.discord_id`); falsy string fields are `none`.
`otherEvent` stands for every event type the handlers ignore. -/
inductive Event where
  | paymentFailed (customer : Option String)
  | subscriptionDeleted (customer : Option String) (periodEnd : Int)
  | checkoutCompleted (customer : Option String) (discordId : Option String)
  | otherEvent
deriving DecidableEq

/-- The state transition of `POST /webhook` in the canonical handler file,
after signature verification: `invoice.payment_failed` (guarded by
`if (invoice.customer)`) sets `subscription_status = 'unlinked'` and
`link_deadline = now()`; `customer.subscription.deleted` (guarded by
`if (sub.customer)`) sets `subscription_status = 'unlinked'` and
`link_deadline = to_timestamp(sub.current_period_end)`; both keyed
`WHERE stripe_customer_id = $1`. Other events leave the tables alone. -/
def applyEvent_part003 (ev : Event) (now : Int) (us : List (String × UserRow)) :
    List (String × UserRow) :=
  match ev with
  | .paymentFailed (some c) =>
      updByCustomer c
        (fun u => { u with subscription_status := "unlinked", link_deadline := some now }) us
  | .subscriptionDeleted (some c) periodEnd =>
      updByCustomer c
        (fun u => { u with subscription_status := "unlinked", link_deadline := some periodEnd }) us
  | _ => us

/-- The state transition of `POST /webhook` in `server.js`, after signature
verification: `checkout.session.completed` (guarded by `if (discordId)`)
sets `stripe_customer_id = session.customer`,
`subscription_status = 'active'`, `updated_at = now()`
`WHERE discord_id = $2`; `customer.subscription.deleted` sets
`subscription_status = 'inactive' WHERE stripe_customer_id = $1`. Other
events leave the tables alone. -/
def applyEvent_serverJs (ev : Event) (now : Int) (us : List (String × UserRow)) :
    List (String × UserRow) :=
  match ev with
  | .checkoutCompleted cust (some d) =>
      updAssoc d
        (fun u => { u with stripe_customer_id := cust,
                           subscription_status := "active", updated_at := now }) us
  | .subscriptionDeleted (some c) _ =>
      updByCustomer c (fun u => { u with subscription_status := "inactive" }) us
  | _ => us

/-- HTTP outcome of the webhook route: 200 `{received: true}` or the 400
"Webhook Error" reply. -/
inductive WebhookResp where
  | ok200
  | err400
deriving DecidableEq

/-- `POST /webhook` of the canonical handler file. `sigOk` is the outcome
of `stripe.webhooks.constructEvent(req.body, sig, STRIPE_WEBHOOK_SECRET)`:
on a signature failure the handler returns 400 from the catch block before
the event is inspected, so neither table is touched. -/
def webhook_part003 (sigOk : Bool) (ev : Event) (now : Int) (db : DB) : WebhookResp × DB :=
  if sigOk then (.ok200, ⟨applyEvent_part003 ev now db.users, db.tokens⟩)
  else (.err400, db)

/-- `POST /webhook` of `server.js`, same shape as `webhook_part003`. -/
def webhook_serverJs (sigOk : Bool) (ev : Event) (now : Int) (db : DB) : WebhookResp × DB :=
  if sigOk then (.ok200, ⟨applyEvent_serverJs ev now db.users, db.tokens⟩)
  else (.err400, db)

/-- The set of status strings the spec allows (`payment_issue` replaced by
what the code actually writes, see the theorems): a status is one the code
can produce iff it is `unlinked`, `active` or `inactive`. -/
def statusOk (s : String) : Prop :=
  s = "unlinked" ∨ s = "active" ∨ s = "inactive"

instance (s : String) : Decidable (statusOk s) :=
  inferInstanceAs (Decidable (s = "unlinked" ∨ s = "active" ∨ s = "inactive"))

/-- Every user row of the table has a status in the closed set. -/
def usersStatusOk (us : List (String × UserRow)) : Prop :=
  ∀ kv ∈ us, statusOk kv.2.subscription_status

instance (us : List (String × UserRow)) : Decidable (usersStatusOk us) :=
  inferInstanceAs (Decidable (∀ kv ∈ us, statusOk kv.2.subscription_status))

/-- Every user row of the database has a status in the closed set. -/
def dbStatusOk (db : DB) : Prop := usersStatusOk db.users

instance (db : DB) : Decidable (dbStatusOk db) :=
  inferInstanceAs (Decidable (usersStatusOk db.users))

theorem updAssoc_cons_self {α : Type} (k : String) (f : α → α) (v : α)
    (rest : List (String × α)) :
    updAssoc k f ((k, v) :: rest) = (k, f v) :: updAssoc k f rest := by
  simp [updAssoc]

theorem updAssoc_cons_ne {α : Type} {k k2 : String} (h : k2 ≠ k) (f : α → α) (v : α)
    (rest : List (String × α)) :
    updAssoc k f ((k2, v) :: rest) = (k2, v) :: updAssoc k f rest := by
  simp [updAssoc, h]

theorem lookupA_cons_self {α : Type} (k : String) (v : α) (rest : List (String × α)) :
    lookupA ((k, v) :: rest) k = some v := by
  simp [lookupA]

theorem lookupA_cons_ne {α : Type} {k k2 : String} (h : k2 ≠ k) (v : α)
    (rest : List (String × α)) :
    lookupA ((k2, v) :: rest) k = lookupA rest k := by
  simp [lookupA, h]

theorem updByCustomer_cons_hit {c : String} {f : UserRow → UserRow} {k2 : String}
    {v : UserRow} {rest : List (String × UserRow)}
    (hc : v.stripe_customer_id = some c) :
    updByCustomer c f ((k2, v) :: rest) = (k2, f v) :: updByCustomer c f rest := by
  simp [updByCustomer, hc]

theorem updByCustomer_cons_miss {c : String} {f : UserRow → UserRow} {k2 : String}
    {v : UserRow} {rest : List (String × UserRow)}
    (hc : ¬v.stripe_customer_id = some c) :
    updByCustomer c f ((k2, v) :: rest) = (k2, v) :: updByCustomer c f rest := by
  simp [updByCustomer, hc]

theorem lookupA_updAssoc_self {α : Type} (k : String) (f : α → α)
    (l : List (String × α)) :
    lookupA (updAssoc k f l) k = (lookupA l k).map f := by
  induction l with
  | nil => rfl
  | cons kv rest ih =>
    obtain ⟨k2, v⟩ := kv
    by_cases h : k2 = k
    · subst h
      rw [updAssoc_cons_self, lookupA_cons_self, lookupA_cons_self]
      rfl
    · rw [updAssoc_cons_ne h, lookupA_cons_ne h, lookupA_cons_ne h]
      exact ih

theorem lookupA_updByCustomer (c : String) (f : UserRow → UserRow)
    (l : List (String × UserRow)) (k : String) :
    lookupA (updByCustomer c f l) k =
      (lookupA l k).map (fun u => if u.stripe_customer_id = some c then f u else u) := by
  induction l with
  | nil => rfl
  | cons kv rest ih =>
    obtain ⟨k2, v⟩ := kv
    by_cases h : k2 = k
    · subst h
      by_cases hc : v.stripe_customer_id = some c
      · rw [updByCustomer_cons_hit hc, lookupA_cons_self, lookupA_cons_self]
        simp [hc]
      · rw [updByCustomer_cons_miss hc, lookupA_cons_self, lookupA_cons_self]
        simp [hc]
    · by_cases hc : v.stripe_customer_id = some c
      · rw [updByCustomer_cons_hit hc, lookupA_cons_ne h, lookupA_cons_ne h]
        exact ih
      · rw [updByCustomer_cons_miss hc, lookupA_cons_ne h, lookupA_cons_ne h]
        exact ih

theorem lookupA_append_of_some {α : Type} {l : List (String × α)} {k : String}
    {v : α} (h : lookupA l k = some v) (l2 : List (String × α)) :
    lookupA (l ++ l2) k = some v := by
  induction l with
  | nil => simp [lookupA] at h
  | cons kv rest ih =>
    obtain ⟨k2, w⟩ := kv
    by_cases hk : k2 = k <;> simp [lookupA, hk] at h ⊢
    · exact h
    · exact ih h

/-- The status vocabulary the spec names for a user record
(`unlinked | active | payment_issue`); compare `statusOk`, the closed set
the code actually writes. -/
def statusSpec (s : String) : Prop :=
  s = "unlinked" ∨ s = "active" ∨ s = "payment_issue"

instance (s : String) : Decidable (statusSpec s) :=
  inferInstanceAs (Decidable (s = "unlinked" ∨ s = "active" ∨ s = "payment_issue"))

/-- C9: a webhook delivery whose signature fails verification against the
shared webhook secret is answered with 400 and its event content is never
processed — both webhook variants return the database exactly as it was,
for every event and every time. -/
theorem webhook_bad_signature_rejected (ev : Event) (now : Int) (db : DB) :
    webhook_part003 false ev now db = (.err400, db) ∧
    webhook_serverJs false ev now db = (.err400, db) := by
  constructor <;> rfl

/-- C10: a `checkout.session.completed` event whose session metadata does
not carry a `discord_id` is acknowledged with 200 and leaves every user
record (and token) unchanged. -/
theorem checkout_without_discord_id_noop (cust : Option String) (now : Int) (db : DB) :
    webhook_serverJs true (.checkoutCompleted cust none) now db = (.ok200, db) := by
  rfl

/-- C1 is violated by the code: the verify step (`POST /link/scan`) selects
the token without any `used_at` or `expires_at` condition and only marks it
used after a successful provider lookup, so it is not an atomic
compare-and-set and a redemption can succeed more than once. Concretely,
two successive verify calls with the same handshake secret, against a
provider holding a matching customer with an active subscription, both
succeed, and each issues its own fresh verification token. -/
theorem verify_twice_both_succeed :
    (linkScan_part003 "t" "e" 0 "m1" (fun _ => some "c") (fun _ => true)
        ⟨[("u", ⟨none, "unlinked", some 86400, 0⟩)], [("t", ⟨"u", 1800, none, none⟩)]⟩).1
      = ScanResult.emailSent ∧
    (linkScan_part003 "t" "e" 60 "m2" (fun _ => some "c") (fun _ => true)
        (linkScan_part003 "t" "e" 0 "m1" (fun _ => some "c") (fun _ => true)
          ⟨[("u", ⟨none, "unlinked", some 86400, 0⟩)], [("t", ⟨"u", 1800, none, none⟩)]⟩).2).1
      = ScanResult.emailSent ∧
    (lookupA (linkScan_part003 "t" "e" 60 "m2" (fun _ => some "c") (fun _ => true)
        (linkScan_part003 "t" "e" 0 "m1" (fun _ => some "c") (fun _ => true)
          ⟨[("u", ⟨none, "unlinked", some 86400, 0⟩)], [("t", ⟨"u", 1800, none, none⟩)]⟩).2).2.tokens
        "m1").isSome = true ∧
    (lookupA (linkScan_part003 "t" "e" 60 "m2" (fun _ => some "c") (fun _ => true)
        (linkScan_part003 "t" "e" 0 "m1" (fun _ => some "c") (fun _ => true)
          ⟨[("u", ⟨none, "unlinked", some 86400, 0⟩)], [("t", ⟨"u", 1800, none, none⟩)]⟩).2).2.tokens
        "m2").isSome = true := by
  decide

/-- C2 counterexample: after a verify that returned NoCustomer, the
handshake token is not spent — a second verify with the same secret is not
rejected with AccessDenied but performs the provider lookup again, and even
succeeds once the provider knows the email. -/
theorem verify_retry_after_no_customer :
    (linkScan_part003 "t" "e" 0 "m1" (fun _ => none) (fun _ => false)
        ⟨[("u", ⟨none, "unlinked", some 86400, 0⟩)], [("t", ⟨"u", 1800, none, none⟩)]⟩)
      = (ScanResult.noCustomer,
         ⟨[("u", ⟨none, "unlinked", some 86400, 0⟩)], [("t", ⟨"u", 1800, none, none⟩)]⟩) ∧
    (linkScan_part003 "t" "e" 5 "m2" (fun _ => some "c") (fun _ => true)
        (linkScan_part003 "t" "e" 0 "m1" (fun _ => none) (fun _ => false)
          ⟨[("u", ⟨none, "unlinked", some 86400, 0⟩)], [("t", ⟨"u", 1800, none, none⟩)]⟩).2).1
      = ScanResult.emailSent := by
  decide

/-- C4 counterexample: a successful finish does not clear the deadline.
With a user whose `link_deadline` is 99, redeeming a valid verification
token at time 10 succeeds, sets `billing_ref` and `active`, but leaves
`link_deadline` at 99 instead of clearing it to null. -/
theorem finish_leaves_deadline_set :
    (linkFinish_part003 "t" 10
        ⟨[("u", ⟨none, "unlinked", some 99, 0⟩)], [("t", ⟨"u", 50, none, some "c"⟩)]⟩).1
      = FinishResult.linked ∧
    lookupA (linkFinish_part003 "t" 10
        ⟨[("u", ⟨none, "unlinked", some 99, 0⟩)], [("t", ⟨"u", 50, none, some "c"⟩)]⟩).2.users "u"
      = some ⟨some "c", "active", some 99, 10⟩ ∧
    (lookupA (linkFinish_part003 "t" 10
        ⟨[("u", ⟨none, "unlinked", some 99, 0⟩)], [("t", ⟨"u", 50, none, some "c"⟩)]⟩).2.users
        "u").map UserRow.link_deadline ≠ some none := by
  decide

/-- C5 counterexample: an expired but unused token is not inert on
redemption. The token expired at time 5, yet `finish` at time 100 redeems
it successfully and changes the state. -/
theorem expired_token_still_redeems :
    (linkFinish_part003 "t" 100
        ⟨[("u", ⟨none, "unlinked", none, 0⟩)], [("t", ⟨"u", 5, none, some "c"⟩)]⟩).1
      = FinishResult.linked ∧
    (linkFinish_part003 "t" 100
        ⟨[("u", ⟨none, "unlinked", none, 0⟩)], [("t", ⟨"u", 5, none, some "c"⟩)]⟩).2
      ≠ ⟨[("u", ⟨none, "unlinked", none, 0⟩)], [("t", ⟨"u", 5, none, some "c"⟩)]⟩ := by
  decide

/-- C6 counterexample: `invoice.payment_failed` at time 7 sets the matched
record to status `unlinked` with deadline 7 (the application time, an
immediate kick), not to `payment_issue` with a deadline about 24 hours
(86400 seconds) out. -/
theorem payment_failed_policy_divergence :
    lookupA (webhook_part003 true (.paymentFailed (some "c")) 7
        ⟨[("u", ⟨some "c", "active", none, 0⟩)], []⟩).2.users "u"
      = some ⟨some "c", "unlinked", some 7, 0⟩ ∧
    (lookupA (webhook_part003 true (.paymentFailed (some "c")) 7
        ⟨[("u", ⟨some "c", "active", none, 0⟩)], []⟩).2.users "u").map
        UserRow.subscription_status ≠ some "payment_issue" ∧
    (lookupA (webhook_part003 true (.paymentFailed (some "c")) 7
        ⟨[("u", ⟨some "c", "active", none, 0⟩)], []⟩).2.users "u").map
        UserRow.link_deadline ≠ some (some (7 + 86400)) := by
  decide

/-- C7 counterexample: applying the same `invoice.payment_failed` event a
second time, one second later, yields a different final state than applying
it once — the deadline is the application time, not a function of the event
content, so the replay moves it. -/
theorem webhook_replay_moves_deadline :
    (webhook_part003 true (.paymentFailed (some "c")) 1
        (webhook_part003 true (.paymentFailed (some "c")) 0
          ⟨[("u", ⟨some "c", "active", none, 0⟩)], []⟩).2).2
      ≠ (webhook_part003 true (.paymentFailed (some "c")) 0
          ⟨[("u", ⟨some "c", "active", none, 0⟩)], []⟩).2 := by
  decide

/-- C8 counterexample: the `server.js` handler for
`customer.subscription.deleted` writes the status `inactive`, a value
outside the spec's vocabulary `unlinked | active | payment_issue`. -/
theorem subscription_deleted_writes_inactive :
    lookupA (webhook_serverJs true (.subscriptionDeleted (some "c") 9) 9
        ⟨[("u", ⟨some "c", "active", none, 0⟩)], []⟩).2.users "u"
      = some ⟨some "c", "inactive", none, 0⟩ ∧
    ¬ statusSpec "inactive" := by
  decide

/-- C2 (amended): a verify call that does not fully succeed — token row
absent, no customer for the email, or no active subscription — changes
nothing: the handshake token is left unspent (the whole state is returned
unchanged), so the token stays redeemable rather than becoming permanently
spent. -/
theorem verify_failure_leaves_state_unchanged (t e : String) (now : Int) (fr : String)
    (customerByEmail : String → Option String) (hasActiveSub : String → Bool) (db : DB)
    (h : (linkScan_part003 t e now fr customerByEmail hasActiveSub db).1
          ≠ ScanResult.emailSent) :
    (linkScan_part003 t e now fr customerByEmail hasActiveSub db).2 = db := by
  cases hl : lookupA db.tokens t with
  | none => simp [linkScan_part003, hl]
  | some row =>
    cases hc : customerByEmail e with
    | none => simp [linkScan_part003, hl, hc]
    | some cid =>
      by_cases ha : hasActiveSub cid
      · exact absurd (by simp [linkScan_part003, hl, hc, ha]) h
      · simp [linkScan_part003, hl, hc, ha]

/-- Witness for C2's amended theorem at a concrete failing verify. -/
theorem verify_failure_leaves_state_unchanged_witness :
    (linkScan_part003 "t" "e" 0 "m" (fun _ => none) (fun _ => false)
        ⟨[], [("t", ⟨"u", 9, none, none⟩)]⟩).1 ≠ ScanResult.emailSent ∧
    (linkScan_part003 "t" "e" 0 "m" (fun _ => none) (fun _ => false)
        ⟨[], [("t", ⟨"u", 9, none, none⟩)]⟩).2
      = ⟨[], [("t", ⟨"u", 9, none, none⟩)]⟩ :=
  ⟨by decide,
   verify_failure_leaves_state_unchanged "t" "e" 0 "m" (fun _ => none) (fun _ => false)
     ⟨[], [("t", ⟨"u", 9, none, none⟩)]⟩ (by decide)⟩

/-- C3: both `start` upserts are idempotent on an already-linked record:
for a user whose status is `active` with a non-null billing reference, the
canonical `ON CONFLICT DO NOTHING` upsert leaves the row untouched, and the
`server.js` `DO UPDATE` upsert refreshes only `link_deadline` — status and
`stripe_customer_id` survive unchanged in both variants. -/
theorem start_preserves_active_linkage (did : String) (now : Int) (fr : String)
    (db : DB) (u : UserRow) (b : String)
    (h1 : lookupA db.users did = some u)
    (h2 : u.subscription_status = "active")
    (h3 : u.stripe_customer_id = some b) :
    lookupA (linkStart_part003 did now fr db).2.users did = some u ∧
    ∃ u2, lookupA (linkStart_serverJs did now fr db).2.users did = some u2 ∧
      u2.subscription_status = "active" ∧ u2.stripe_customer_id = some b := by
  have hs : (lookupA db.users did).isSome = true := by rw [h1]; rfl
  constructor
  · simp only [linkStart_part003]
    rw [if_pos hs]
    exact h1
  · by_cases hd : did = ""
    · refine ⟨u, ?_, h2, h3⟩
      simp only [linkStart_serverJs]
      rw [if_pos hd]
      exact h1
    · refine ⟨{ u with link_deadline := some (now + 172800) }, ?_, h2, h3⟩
      simp only [linkStart_serverJs]
      rw [if_neg hd, if_pos hs]
      show lookupA (updAssoc did _ db.users) did = _
      rw [lookupA_updAssoc_self, h1]
      rfl

/-- Witness for C3 at a concrete active, linked record. -/
theorem start_preserves_active_linkage_witness :
    lookupA (⟨[("u", ⟨some "b", "active", none, 0⟩)], []⟩ : DB).users "u"
        = some ⟨some "b", "active", none, 0⟩ ∧
    (lookupA (linkStart_part003 "u" 0 "t"
          ⟨[("u", ⟨some "b", "active", none, 0⟩)], []⟩).2.users "u"
        = some ⟨some "b", "active", none, 0⟩ ∧
      ∃ u2, lookupA (linkStart_serverJs "u" 0 "t"
          ⟨[("u", ⟨some "b", "active", none, 0⟩)], []⟩).2.users "u" = some u2 ∧
        u2.subscription_status = "active" ∧ u2.stripe_customer_id = some "b") :=
  ⟨by decide,
   start_preserves_active_linkage "u" 0 "t" ⟨[("u", ⟨some "b", "active", none, 0⟩)], []⟩
     ⟨some "b", "active", none, 0⟩ "b" (by decide) rfl rfl⟩

/-- C4 (amended): a successful finish on a valid (unused) verification
token marks the token used and rewrites the user row keyed by the token's
`discord_id` to carry the payload's customer id as `stripe_customer_id`,
status `active`, and `updated_at = now` — but `link_deadline` is left
exactly as it was, not cleared. -/
theorem finish_activates_without_clearing_deadline (t : String) (now : Int) (db : DB)
    (row : TokenRow) (u : UserRow)
    (h1 : lookupA db.tokens t = some row)
    (h2 : row.used_at = none)
    (h3 : lookupA db.users row.discord_id = some u) :
    (linkFinish_part003 t now db).1 = FinishResult.linked ∧
    lookupA (linkFinish_part003 t now db).2.users row.discord_id
      = some { u with stripe_customer_id := row.metadata,
                      subscription_status := "active", updated_at := now } := by
  have hn : row.used_at.isNone = true := by rw [h2]; rfl
  refine ⟨by simp [linkFinish_part003, h1, hn], ?_⟩
  have husers : (linkFinish_part003 t now db).2.users
      = updAssoc row.discord_id
          (fun u => { u with stripe_customer_id := row.metadata,
                             subscription_status := "active", updated_at := now })
          db.users := by
    simp [linkFinish_part003, h1, hn]
  rw [husers, lookupA_updAssoc_self, h3]
  rfl

/-- Witness for C4's amended theorem at a concrete valid finish. -/
theorem finish_activates_without_clearing_deadline_witness :
    lookupA (⟨[("u", ⟨none, "unlinked", some 99, 0⟩)], [("t", ⟨"u", 50, none, some "c"⟩)]⟩ :
        DB).tokens "t" = some ⟨"u", 50, none, some "c"⟩ ∧
    ((linkFinish_part003 "t" 10
        ⟨[("u", ⟨none, "unlinked", some 99, 0⟩)], [("t", ⟨"u", 50, none, some "c"⟩)]⟩).1
      = FinishResult.linked ∧
    lookupA (linkFinish_part003 "t" 10
        ⟨[("u", ⟨none, "unlinked", some 99, 0⟩)], [("t", ⟨"u", 50, none, some "c"⟩)]⟩).2.users "u"
      = some ⟨some "c", "active", some 99, 10⟩) :=
  ⟨by decide,
   finish_activates_without_clearing_deadline "t" 10
     ⟨[("u", ⟨none, "unlinked", some 99, 0⟩)], [("t", ⟨"u", 50, none, some "c"⟩)]⟩
     ⟨"u", 50, none, some "c"⟩ ⟨none, "unlinked", some 99, 0⟩
     (by decide) rfl (by decide)⟩

/-- C5 (amended): expiry is enforced only when the link is presented — on a
token whose `expires_at` has passed but whose `used_at` is still null,
`GET /link` refuses the form, yet neither redemption path checks
`expires_at`: verify never answers its 403 for a token row that exists, and
finish redeems the expired token successfully. -/
theorem expiry_checked_only_at_presentation (t e fr : String) (now : Int) (db : DB)
    (row : TokenRow)
    (customerByEmail : String → Option String) (hasActiveSub : String → Bool)
    (h1 : lookupA db.tokens t = some row)
    (h2 : row.used_at = none)
    (h3 : row.expires_at < now) :
    linkPresent_part003 t now db = false ∧
    (linkScan_part003 t e now fr customerByEmail hasActiveSub db).1
      ≠ ScanResult.expired403 ∧
    (linkFinish_part003 t now db).1 = FinishResult.linked := by
  refine ⟨?_, ?_, ?_⟩
  · have hlt : ¬ (now < row.expires_at) := not_lt.mpr (le_of_lt h3)
    simp [linkPresent_part003, h1, hlt]
  · cases hc : customerByEmail e with
    | none => simp [linkScan_part003, h1, hc]
    | some cid =>
      by_cases ha : hasActiveSub cid <;> simp [linkScan_part003, h1, hc, ha]
  · have hn : row.used_at.isNone = true := by rw [h2]; rfl
    simp [linkFinish_part003, h1, hn]

/-- Witness for C5's amended theorem at a concrete expired token. -/
theorem expiry_checked_only_at_presentation_witness :
    lookupA (⟨[("u", ⟨none, "unlinked", none, 0⟩)], [("t", ⟨"u", 5, none, some "c"⟩)]⟩ :
        DB).tokens "t" = some ⟨"u", 5, none, some "c"⟩ ∧
    ((5 : Int) < 100) ∧
    (linkPresent_part003 "t" 100
        ⟨[("u", ⟨none, "unlinked", none, 0⟩)], [("t", ⟨"u", 5, none, some "c"⟩)]⟩ = false ∧
    (linkScan_part003 "t" "e" 100 "m" (fun _ => none) (fun _ => false)
        ⟨[("u", ⟨none, "unlinked", none, 0⟩)], [("t", ⟨"u", 5, none, some "c"⟩)]⟩).1
      ≠ ScanResult.expired403 ∧
    (linkFinish_part003 "t" 100
        ⟨[("u", ⟨none, "unlinked", none, 0⟩)], [("t", ⟨"u", 5, none, some "c"⟩)]⟩).1
      = FinishResult.linked) :=
  ⟨by decide, by decide,
   expiry_checked_only_at_presentation "t" "e" "m" 100
     ⟨[("u", ⟨none, "unlinked", none, 0⟩)], [("t", ⟨"u", 5, none, some "c"⟩)]⟩
     ⟨"u", 5, none, some "c"⟩ (fun _ => none) (fun _ => false)
     (by decide) rfl (by decide)⟩

/-- C6 (amended): `invoice.payment_failed` sets every record matching the
event's customer to status `unlinked` with `link_deadline` equal to the
application time (an immediate revocation deadline), rather than
`payment_issue` with a 24-hour grace. -/
theorem payment_failed_sets_unlinked_immediate (c : String) (now : Int) (db : DB)
    (k : String) (u : UserRow)
    (h1 : lookupA db.users k = some u)
    (h2 : u.stripe_customer_id = some c) :
    lookupA (webhook_part003 true (.paymentFailed (some c)) now db).2.users k
      = some { u with subscription_status := "unlinked", link_deadline := some now } := by
  show lookupA (updByCustomer c _ db.users) k = _
  rw [lookupA_updByCustomer, h1]
  simp [h2]

/-- Witness for C6's amended theorem at a concrete matched record. -/
theorem payment_failed_sets_unlinked_immediate_witness :
    lookupA (⟨[("u", ⟨some "c", "active", none, 0⟩)], []⟩ : DB).users "u"
        = some ⟨some "c", "active", none, 0⟩ ∧
    lookupA (webhook_part003 true (.paymentFailed (some "c")) 7
        ⟨[("u", ⟨some "c", "active", none, 0⟩)], []⟩).2.users "u"
      = some ⟨some "c", "unlinked", some 7, 0⟩ :=
  ⟨by decide,
   payment_failed_sets_unlinked_immediate "c" 7
     ⟨[("u", ⟨some "c", "active", none, 0⟩)], []⟩ "u"
     ⟨some "c", "active", none, 0⟩ (by decide) rfl⟩

theorem updAssoc_idem {α : Type} (k : String) (f : α → α)
    (hf : ∀ v, f (f v) = f v) (l : List (String × α)) :
    updAssoc k f (updAssoc k f l) = updAssoc k f l := by
  induction l with
  | nil => rfl
  | cons kv rest ih =>
    obtain ⟨k2, v⟩ := kv
    by_cases h : k2 = k
    · subst h
      rw [updAssoc_cons_self, updAssoc_cons_self, hf, ih]
    · rw [updAssoc_cons_ne h, updAssoc_cons_ne h, ih]

theorem updByCustomer_idem (c : String) (f : UserRow → UserRow)
    (hp : ∀ v, (f v).stripe_customer_id = v.stripe_customer_id)
    (hf : ∀ v, f (f v) = f v) (l : List (String × UserRow)) :
    updByCustomer c f (updByCustomer c f l) = updByCustomer c f l := by
  induction l with
  | nil => rfl
  | cons kv rest ih =>
    obtain ⟨k2, v⟩ := kv
    by_cases hc : v.stripe_customer_id = some c
    · rw [updByCustomer_cons_hit hc, updByCustomer_cons_hit ((hp v).trans hc), hf, ih]
    · rw [updByCustomer_cons_miss hc, updByCustomer_cons_miss hc, ih]

/-- C7 (amended): applying the same webhook event twice at the same
application instant gives the same final state as applying it once, in
both variants. (As stated originally over successive applications the
claim fails: the `payment_failed` transition writes `link_deadline = now()`,
a function of the application time, not of the event content — see the
counterexample.) -/
theorem webhook_apply_idempotent_same_instant (ev : Event) (now : Int) (db : DB) :
    (webhook_part003 true ev now (webhook_part003 true ev now db).2).2
      = (webhook_part003 true ev now db).2 ∧
    (webhook_serverJs true ev now (webhook_serverJs true ev now db).2).2
      = (webhook_serverJs true ev now db).2 := by
  constructor
  · cases ev with
    | paymentFailed c =>
      cases c with
      | none => rfl
      | some c =>
        exact congrArg (fun us => DB.mk us db.tokens)
          (updByCustomer_idem c
            (fun u => { u with subscription_status := "unlinked", link_deadline := some now })
            (fun v => rfl) (fun v => rfl) db.users)
    | subscriptionDeleted c periodEnd =>
      cases c with
      | none => rfl
      | some c =>
        exact congrArg (fun us => DB.mk us db.tokens)
          (updByCustomer_idem c
            (fun u => { u with subscription_status := "unlinked",
                               link_deadline := some periodEnd })
            (fun v => rfl) (fun v => rfl) db.users)
    | checkoutCompleted cu d => rfl
    | otherEvent => rfl
  · cases ev with
    | paymentFailed c => rfl
    | subscriptionDeleted c periodEnd =>
      cases c with
      | none => rfl
      | some c =>
        exact congrArg (fun us => DB.mk us db.tokens)
          (updByCustomer_idem c
            (fun u => { u with subscription_status := "inactive" })
            (fun v => rfl) (fun v => rfl) db.users)
    | checkoutCompleted cu d =>
      cases d with
      | none => rfl
      | some d =>
        exact congrArg (fun us => DB.mk us db.tokens)
          (updAssoc_idem d
            ((fun u => { u with stripe_customer_id := cu,
                                subscription_status := "active", updated_at := now }) :
              UserRow → UserRow)
            (fun v => rfl) db.users)
    | otherEvent => rfl

theorem usersStatusOk_append_single (l : List (String × UserRow)) (k : String)
    (u : UserRow) (h : usersStatusOk l) (hu : statusOk u.subscription_status) :
    usersStatusOk (l ++ [(k, u)]) := by
  intro kv hkv
  rcases List.mem_append.mp hkv with h1 | h1
  · exact h kv h1
  · have h2 : kv = (k, u) := List.mem_singleton.mp h1
    rw [h2]
    exact hu

theorem usersStatusOk_updAssoc (k : String) (f : UserRow → UserRow)
    (hf : ∀ u, statusOk u.subscription_status → statusOk (f u).subscription_status)
    (l : List (String × UserRow)) :
    usersStatusOk l → usersStatusOk (updAssoc k f l) := by
  induction l with
  | nil =>
    intro _ kv hkv
    simp [updAssoc] at hkv
  | cons kv0 rest ih =>
    obtain ⟨k2, v⟩ := kv0
    intro h kv hkv
    have hv : statusOk v.subscription_status := h (k2, v) (List.mem_cons_self _ _)
    have hrest : usersStatusOk rest := fun kv2 hkv2 => h kv2 (List.mem_cons_of_mem _ hkv2)
    by_cases hk : k2 = k
    · subst hk
      rw [updAssoc_cons_self] at hkv
      rcases List.mem_cons.mp hkv with h1 | h1
      · rw [h1]
        exact hf v hv
      · exact ih hrest kv h1
    · rw [updAssoc_cons_ne hk] at hkv
      rcases List.mem_cons.mp hkv with h1 | h1
      · rw [h1]
        exact hv
      · exact ih hrest kv h1

theorem usersStatusOk_updByCustomer (c : String) (f : UserRow → UserRow)
    (hf : ∀ u, statusOk u.subscription_status → statusOk (f u).subscription_status)
    (l : List (String × UserRow)) :
    usersStatusOk l → usersStatusOk (updByCustomer c f l) := by
  induction l with
  | nil =>
    intro _ kv hkv
    simp [updByCustomer] at hkv
  | cons kv0 rest ih =>
    obtain ⟨k2, v⟩ := kv0
    intro h kv hkv
    have hv : statusOk v.subscription_status := h (k2, v) (List.mem_cons_self _ _)
    have hrest : usersStatusOk rest := fun kv2 hkv2 => h kv2 (List.mem_cons_of_mem _ hkv2)
    by_cases hc : v.stripe_customer_id = some c
    · rw [updByCustomer_cons_hit hc] at hkv
      rcases List.mem_cons.mp hkv with h1 | h1
      · rw [h1]
        exact hf v hv
      · exact ih hrest kv h1
    · rw [updByCustomer_cons_miss hc] at hkv
      rcases List.mem_cons.mp hkv with h1 | h1
      · rw [h1]
        exact hv
      · exact ih hrest kv h1

/-- C8 (amended): every operation of the system keeps each user record's
status inside the closed set the code actually writes —
`unlinked | active | inactive`. (`payment_issue` never occurs in the code,
and the `server.js` subscription-deleted path writes `inactive`, outside
the spec's vocabulary — see the counterexample.) -/
theorem operations_keep_status_closed (db : DB) (h : dbStatusOk db)
    (did t e fr : String) (now : Int)
    (customerByEmail : String → Option String) (hasActiveSub : String → Bool)
    (ev : Event) (sig : Bool) :
    dbStatusOk (linkStart_part003 did now fr db).2 ∧
    dbStatusOk (linkStart_serverJs did now fr db).2 ∧
    dbStatusOk (linkScan_part003 t e now fr customerByEmail hasActiveSub db).2 ∧
    dbStatusOk (linkFinish_part003 t now db).2 ∧
    dbStatusOk (webhook_part003 sig ev now db).2 ∧
    dbStatusOk (webhook_serverJs sig ev now db).2 := by
  refine ⟨?_, ?_, ?_, ?_, ?_, ?_⟩
  · show usersStatusOk (linkStart_part003 did now fr db).2.users
    by_cases hs : (lookupA db.users did).isSome
    · have husers : (linkStart_part003 did now fr db).2.users = db.users := by
        simp [linkStart_part003, hs]
      rw [husers]
      exact h
    · have husers : (linkStart_part003 did now fr db).2.users
          = db.users ++ [(did, ⟨none, "unlinked", some (now + 86400), now⟩)] := by
        simp [linkStart_part003, hs]
      rw [husers]
      exact usersStatusOk_append_single _ _ _ h (Or.inl rfl)
  · show usersStatusOk (linkStart_serverJs did now fr db).2.users
    by_cases hd : did = ""
    · have husers : (linkStart_serverJs did now fr db).2.users = db.users := by
        simp [linkStart_serverJs, hd]
      rw [husers]
      exact h
    · by_cases hs : (lookupA db.users did).isSome
      · have husers : (linkStart_serverJs did now fr db).2.users
            = updAssoc did (fun u => { u with link_deadline := some (now + 172800) })
                db.users := by
          simp [linkStart_serverJs, hd, hs]
        rw [husers]
        exact usersStatusOk_updAssoc did
          (fun u => { u with link_deadline := some (now + 172800) })
          (fun u hu => hu) db.users h
      · have husers : (linkStart_serverJs did now fr db).2.users
            = db.users ++ [(did, ⟨none, "unlinked", some (now + 172800), now⟩)] := by
          simp [linkStart_serverJs, hd, hs]
        rw [husers]
        exact usersStatusOk_append_single _ _ _ h (Or.inl rfl)
  · show usersStatusOk (linkScan_part003 t e now fr customerByEmail hasActiveSub db).2.users
    have husers : (linkScan_part003 t e now fr customerByEmail hasActiveSub db).2.users
        = db.users := by
      cases hl : lookupA db.tokens t with
      | none => simp [linkScan_part003, hl]
      | some row =>
        cases hc : customerByEmail e with
        | none => simp [linkScan_part003, hl, hc]
        | some cid =>
          by_cases ha : hasActiveSub cid <;> simp [linkScan_part003, hl, hc, ha]
    rw [husers]
    exact h
  · show usersStatusOk (linkFinish_part003 t now db).2.users
    cases hl : lookupA db.tokens t with
    | none =>
      have husers : (linkFinish_part003 t now db).2.users = db.users := by
        simp [linkFinish_part003, hl]
      rw [husers]
      exact h
    | some row =>
      by_cases hn : row.used_at.isNone
      · have husers : (linkFinish_part003 t now db).2.users
            = updAssoc row.discord_id
                (fun u => { u with stripe_customer_id := row.metadata,
                                   subscription_status := "active", updated_at := now })
                db.users := by
          simp [linkFinish_part003, hl, hn]
        rw [husers]
        exact usersStatusOk_updAssoc _ _ (fun u _ => Or.inr (Or.inl rfl)) _ h
      · have husers : (linkFinish_part003 t now db).2.users = db.users := by
          simp [linkFinish_part003, hl, hn]
        rw [husers]
        exact h
  · cases sig with
    | false => exact h
    | true =>
      cases ev with
      | paymentFailed c =>
        cases c with
        | none => exact h
        | some c =>
          exact usersStatusOk_updByCustomer c
            (fun u => { u with subscription_status := "unlinked", link_deadline := some now })
            (fun u _ => Or.inl rfl) db.users h
      | subscriptionDeleted c periodEnd =>
        cases c with
        | none => exact h
        | some c =>
          exact usersStatusOk_updByCustomer c
            (fun u => { u with subscription_status := "unlinked",
                               link_deadline := some periodEnd })
            (fun u _ => Or.inl rfl) db.users h
      | checkoutCompleted cu d => exact h
      | otherEvent => exact h
  · cases sig with
    | false => exact h
    | true =>
      cases ev with
      | paymentFailed c => exact h
      | subscriptionDeleted c periodEnd =>
        cases c with
        | none => exact h
        | some c =>
          exact usersStatusOk_updByCustomer c
            (fun u => { u with subscription_status := "inactive" })
            (fun u _ => Or.inr (Or.inr rfl)) db.users h
      | checkoutCompleted cu d =>
        cases d with
        | none => exact h
        | some d =>
          exact usersStatusOk_updAssoc d
            (fun u => { u with stripe_customer_id := cu,
                               subscription_status := "active", updated_at := now })
            (fun u _ => Or.inr (Or.inl rfl)) db.users h
      | otherEvent => exact h

/-- Witness for C8's amended theorem at a concrete database and inputs. -/
theorem operations_keep_status_closed_witness :
    dbStatusOk (⟨[("u", ⟨some "c", "active", none, 0⟩)], []⟩ : DB) ∧
    (dbStatusOk (linkStart_part003 "d" 0 "f"
        ⟨[("u", ⟨some "c", "active", none, 0⟩)], []⟩).2 ∧
     dbStatusOk (linkStart_serverJs "d" 0 "f"
        ⟨[("u", ⟨some "c", "active", none, 0⟩)], []⟩).2 ∧
     dbStatusOk (linkScan_part003 "t" "e" 0 "f" (fun _ => none) (fun _ => false)
        ⟨[("u", ⟨some "c", "active", none, 0⟩)], []⟩).2 ∧
     dbStatusOk (linkFinish_part003 "t" 0
        ⟨[("u", ⟨some "c", "active", none, 0⟩)], []⟩).2 ∧
     dbStatusOk (webhook_part003 true Event.otherEvent 0
        ⟨[("u", ⟨some "c", "active", none, 0⟩)], []⟩).2 ∧
     dbStatusOk (webhook_serverJs true Event.otherEvent 0
        ⟨[("u", ⟨some "c", "active", none, 0⟩)], []⟩).2) :=
  ⟨by decide,
   operations_keep_status_closed ⟨[("u", ⟨some "c", "active", none, 0⟩)], []⟩ (by decide)
     "d" "t" "e" "f" 0 (fun _ => none) (fun _ => false) Event.otherEvent true⟩

end Gatekeeper
